import Mathlib

/-!
Shallow embedding of `src/openssl-tracer/openssl_tracer_bpf_funcs.c`, a BPF
program that traces SSL_write / SSL_read / SSL_read_ex of a target process.

Pointers are modelled as natural-number addresses; traced-process memory is a
pair of read views (`mem` for single bytes, `memSize` for `size_t` loads).
Machine integers are modelled as `Nat` with explicit truncation, and the C
`int` casts as `toInt32`.  Each BPF hash map becomes a function
`Nat → Option α`; the per-CPU scratch slots (`data_buffer_heap`,
`args_buffer_heap`) become fields of the tracer state, since every handler of
one trace runs on one CPU in this model.  Each probe handler is a function
from the pre-state to the post-state paired with the list of events it
submits to the perf buffer.
-/

namespace OpenSSLTracer

/-- Modelled from the spec: `MAX_DATA_SIZE` comes from
`openssl_tracer_types.h`, which is not among the source files; the spec fixes
it to 4096, a power of two bounding the per-event payload. -/
def MAX_DATA_SIZE : Nat := 4096

/-- Modelled from the spec: `enum ssl_data_event_type` from
`openssl_tracer_types.h` (not among the source files); the two call kinds of
an emitted event. -/
inductive SSLEventType where
  | kSSLRead
  | kSSLWrite

/-- Modelled from the spec: `struct ssl_data_event_t` from
`openssl_tracer_types.h` (not among the source files): timestamp, process id,
thread id, call kind, clamped data length, and a payload of fixed capacity
`MAX_DATA_SIZE`, modelled as a function from byte offset to byte value (only
offsets below `MAX_DATA_SIZE` are meaningful). -/
structure SSLDataEvent where
  type : SSLEventType
  timestamp_ns : Nat
  pid : Nat
  tid : Nat
  data_len : Nat
  data : Nat → Nat

/-- Embedding of `struct buffer` (line 29): the data pointer and the `size_t*` length-out
pointer captured at `SSL_read_ex` entry. -/
structure Buffer where
  content : Nat
  len : Nat

/-- Ambient facts a handler invocation observes: the current
`bpf_get_current_pid_tgid` value, the `bpf_ktime_get_ns` clock, and the
traced process's memory (byte loads and `size_t` loads). -/
structure World where
  pid_tgid : Nat
  ktime : Nat
  mem : Nat → Nat
  memSize : Nat → Nat

/-- The registers a handler reads from `struct pt_regs`: the return-value
register and the second and fourth argument registers. -/
structure Regs where
  rc : Nat
  parm2 : Nat
  parm4 : Nat

/-- The three BPF hash maps (lines 36-38) and the two per-CPU scratch slots
(lines 44-45). -/
structure TracerState where
  active_ssl_read_args_map : Nat → Option Nat
  active_ssl_write_args_map : Nat → Option Nat
  active_ssl_readex_buf_len_map : Nat → Option Buffer
  data_buffer_heap : SSLDataEvent
  args_buffer_heap : Buffer

/-- The BCC `map.update` operation: insert or overwrite. -/
def updMap {α : Type} (m : Nat → Option α) (k : Nat) (v : α) : Nat → Option α :=
  fun k2 => if k2 = k then some v else m k2

/-- The BCC `map.delete` operation: remove if present, no-op otherwise. -/
def delMap {α : Type} (m : Nat → Option α) (k : Nat) : Nat → Option α :=
  fun k2 => if k2 = k then none else m k2

/-- The C cast `(int)x` of a 64-bit value: truncate to 32 bits, reinterpret
as two's complement. -/
def toInt32 (x : Nat) : Int :=
  if x % 4294967296 < 2147483648 then ((x % 4294967296 : Nat) : Int)
  else ((x % 4294967296 : Nat) : Int) - 4294967296

/-- Embedding of `uint32_t pid = current_pid_tgid >> 32` (the conversion of the shifted
64-bit value to `uint32_t`). -/
def pidOf (id : Nat) : Nat := (id >>> 32) % 4294967296

/-- The clamp of lines 92 and 113:
`(len < MAX_DATA_SIZE ? (len & (MAX_DATA_SIZE - 1)) : MAX_DATA_SIZE)` on a C
`int`, converted to the unsigned `data_len` field.  `Int.land` is two's
complement bitwise AND, matching `&` on `int`. -/
def clampLen (L : Int) : Nat :=
  (if L < (MAX_DATA_SIZE : Int) then Int.land L ((MAX_DATA_SIZE : Int) - 1)
   else (MAX_DATA_SIZE : Int)).toNat

/-- Embedding of `create_ssl_data_event` (lines 51-64): stamp timestamp, pid and tid into
the per-CPU event slot; the per-CPU array lookup of the valid index 0 always
succeeds. -/
def create_ssl_data_event (w : World) (current_pid_tgid : Nat)
    (slot : SSLDataEvent) : SSLDataEvent :=
  { slot with
    timestamp_ns := w.ktime
    pid := pidOf current_pid_tgid
    tid := current_pid_tgid &&& 4294967295 }

/-- Embedding of `process_SSL_data` (lines 78-97): on a negative `int` return value do
nothing; otherwise build an event in the scratch slot, clamp the length,
copy that many bytes from `buf`, and submit the whole record. -/
def process_SSL_data (w : World) (r : Regs) (id : Nat) (t : SSLEventType)
    (buf : Nat) (s : TracerState) : TracerState × List SSLDataEvent :=
  let len : Int := toInt32 r.rc
  if len < 0 then (s, [])
  else
    let ev0 := create_ssl_data_event w id s.data_buffer_heap
    let dl := clampLen len
    let ev : SSLDataEvent :=
      { ev0 with
        type := t
        data_len := dl
        data := fun i => if i < dl then w.mem (buf + i) else ev0.data i }
    ({ s with data_buffer_heap := ev }, [ev])

/-- Embedding of `process_SSL_ex_data` (lines 98-118): on a zero `int` return status do
nothing; otherwise read the `size_t` pointee of the captured length-out
pointer, cast it to `int`, clamp, copy from the captured content pointer,
and submit the whole record. -/
def process_SSL_ex_data (w : World) (r : Regs) (id : Nat) (t : SSLEventType)
    (b : Buffer) (s : TracerState) : TracerState × List SSLDataEvent :=
  let is_success : Int := toInt32 r.rc
  if is_success = 0 then (s, [])
  else
    let ev0 := create_ssl_data_event w id s.data_buffer_heap
    let length : Int := toInt32 (w.memSize b.len)
    let dl := clampLen length
    let ev : SSLDataEvent :=
      { ev0 with
        type := t
        data_len := dl
        data := fun i => if i < dl then w.mem (b.content + i) else ev0.data i }
    ({ s with data_buffer_heap := ev }, [ev])

/-- Embedding of `probe_entry_SSL_write` (lines 127-139). -/
def probe_entry_SSL_write (T : Nat) (w : World) (r : Regs)
    (s : TracerState) : TracerState × List SSLDataEvent :=
  let id := w.pid_tgid
  if pidOf id ≠ T then (s, [])
  else
    ({ s with
        active_ssl_write_args_map := updMap s.active_ssl_write_args_map id r.parm2 }, [])

/-- Embedding of `probe_ret_SSL_write` (lines 141-156). -/
def probe_ret_SSL_write (T : Nat) (w : World) (r : Regs)
    (s : TracerState) : TracerState × List SSLDataEvent :=
  let id := w.pid_tgid
  if pidOf id ≠ T then (s, [])
  else
    let p :=
      match s.active_ssl_write_args_map id with
      | some buf => process_SSL_data w r id SSLEventType.kSSLWrite buf s
      | none => (s, [])
    ({ p.1 with
        active_ssl_write_args_map := delMap p.1.active_ssl_write_args_map id }, p.2)

/-- Embedding of `probe_entry_SSL_read` (lines 160-172). -/
def probe_entry_SSL_read (T : Nat) (w : World) (r : Regs)
    (s : TracerState) : TracerState × List SSLDataEvent :=
  let id := w.pid_tgid
  if pidOf id ≠ T then (s, [])
  else
    ({ s with
        active_ssl_read_args_map := updMap s.active_ssl_read_args_map id r.parm2 }, [])

/-- Embedding of `probe_ret_SSL_read` (lines 174-189). -/
def probe_ret_SSL_read (T : Nat) (w : World) (r : Regs)
    (s : TracerState) : TracerState × List SSLDataEvent :=
  let id := w.pid_tgid
  if pidOf id ≠ T then (s, [])
  else
    let p :=
      match s.active_ssl_read_args_map id with
      | some buf => process_SSL_data w r id SSLEventType.kSSLRead buf s
      | none => (s, [])
    ({ p.1 with
        active_ssl_read_args_map := delMap p.1.active_ssl_read_args_map id }, p.2)

/-- Embedding of `probe_entry_SSL_read_ex` (lines 225-246): fill the per-CPU args scratch
slot with the captured pointers and copy it into the readex map (the per-CPU
array lookup of index 0 always succeeds). -/
def probe_entry_SSL_read_ex (T : Nat) (w : World) (r : Regs)
    (s : TracerState) : TracerState × List SSLDataEvent :=
  let id := w.pid_tgid
  if pidOf id ≠ T then (s, [])
  else
    let b : Buffer := { content := r.parm2, len := r.parm4 }
    ({ s with
        args_buffer_heap := b
        active_ssl_readex_buf_len_map := updMap s.active_ssl_readex_buf_len_map id b }, [])

/-- Embedding of `probe_ret_SSL_read_ex` (lines 248-263).  Note: line 261 deletes from
`active_ssl_read_args_map`, not from `active_ssl_readex_buf_len_map`; the
embedding reproduces this faithfully. -/
def probe_ret_SSL_read_ex (T : Nat) (w : World) (r : Regs)
    (s : TracerState) : TracerState × List SSLDataEvent :=
  let id := w.pid_tgid
  if pidOf id ≠ T then (s, [])
  else
    let p :=
      match s.active_ssl_readex_buf_len_map id with
      | some b => process_SSL_ex_data w r id SSLEventType.kSSLRead b s
      | none => (s, [])
    ({ p.1 with
        active_ssl_read_args_map := delMap p.1.active_ssl_read_args_map id }, p.2)

/-- One probe-handler invocation, with the world and registers it observes. -/
inductive Invocation where
  | entryWrite (w : World) (r : Regs)
  | retWrite (w : World) (r : Regs)
  | entryRead (w : World) (r : Regs)
  | retRead (w : World) (r : Regs)
  | entryReadEx (w : World) (r : Regs)
  | retReadEx (w : World) (r : Regs)

/-- The world an invocation observes. -/
def Invocation.world : Invocation → World
  | .entryWrite w _ => w
  | .retWrite w _ => w
  | .entryRead w _ => w
  | .retRead w _ => w
  | .entryReadEx w _ => w
  | .retReadEx w _ => w

/-- Dispatch one invocation to its handler. -/
def step (T : Nat) (s : TracerState) : Invocation → TracerState × List SSLDataEvent
  | .entryWrite w r => probe_entry_SSL_write T w r s
  | .retWrite w r => probe_ret_SSL_write T w r s
  | .entryRead w r => probe_entry_SSL_read T w r s
  | .retRead w r => probe_ret_SSL_read T w r s
  | .entryReadEx w r => probe_entry_SSL_read_ex T w r s
  | .retReadEx w r => probe_ret_SSL_read_ex T w r s

/-- Run a sequence of invocations, accumulating the submitted events. -/
def runTrace (T : Nat) (s : TracerState) : List Invocation → TracerState × List SSLDataEvent
  | [] => (s, [])
  | inv :: rest =>
    let p := step T s inv
    let q := runTrace T p.1 rest
    (q.1, p.2 ++ q.2)

/-!
Concrete fixtures used by witnesses and counterexample traces: a thread of
process 1234 (thread id 7), an initial tracer state with empty maps and a
zeroed scratch slot, and simple worlds and register files.
-/

/-- A 64-bit thread identity: process id 1234, thread id 7. -/
def tid0 : Nat := 1234 * 4294967296 + 7

/-- A second thread of the same process: process id 1234, thread id 8. -/
def tid1 : Nat := 1234 * 4294967296 + 8

/-- Zeroed event slot. -/
def evInit : SSLDataEvent :=
  { type := SSLEventType.kSSLRead, timestamp_ns := 0, pid := 0, tid := 0
    data_len := 0, data := fun _ => 0 }

instance : Inhabited SSLDataEvent := ⟨evInit⟩

/-- Initial tracer state: all maps empty, scratch slots zeroed. -/
def stInit : TracerState :=
  { active_ssl_read_args_map := fun _ => none
    active_ssl_write_args_map := fun _ => none
    active_ssl_readex_buf_len_map := fun _ => none
    data_buffer_heap := evInit
    args_buffer_heap := { content := 0, len := 0 } }

/-- A world for thread `tid0`: every byte reads as its address mod 256 and
every `size_t` load reads 10. -/
def wThread0 : World :=
  { pid_tgid := tid0, ktime := 5, mem := fun a => a % 256, memSize := fun _ => 10 }

/-- A world for thread `tid1`. -/
def wThread1 : World :=
  { pid_tgid := tid1, ktime := 6, mem := fun a => a % 256, memSize := fun _ => 10 }

/-- A world whose process id (999) differs from the target 1234. -/
def wOther : World :=
  { pid_tgid := 999 * 4294967296 + 3, ktime := 0, mem := fun _ => 0, memSize := fun _ => 0 }

/-- Registers of a return site whose raw return value is 10. -/
def regsRet10 : Regs := { rc := 10, parm2 := 0, parm4 := 0 }

/-- Registers of a return site whose raw return value is `(int)(-1)`. -/
def regsRetNeg : Regs := { rc := 4294967295, parm2 := 0, parm4 := 0 }

/-- Registers of a return site whose raw return value is 0. -/
def regsRet0 : Regs := { rc := 0, parm2 := 0, parm4 := 0 }

/-- Registers of an entry site: data pointer 1000, length-out pointer 2000. -/
def regsEntryA : Regs := { rc := 0, parm2 := 1000, parm4 := 2000 }

/-- Registers of an entry site of a second thread: data pointer 3000. -/
def regsEntryB : Regs := { rc := 0, parm2 := 3000, parm4 := 4000 }

/-- State in which thread `tid0` has an armed write-shape entry for buffer
pointer 1000. -/
def stArmedWrite : TracerState :=
  { stInit with
      active_ssl_write_args_map := updMap stInit.active_ssl_write_args_map tid0 1000 }

/-- A world whose `size_t` load yields `2^64 - 1`, whose `int` cast is
negative. -/
def wNegLen : World :=
  { pid_tgid := tid0, ktime := 0, mem := fun _ => 0
    memSize := fun _ => 18446744073709551615 }

/-!
Helper lemmas about the clamp arithmetic.
-/

/-- Unfolding `clampLen` with the numerals evaluated. -/
theorem clampLen_def2 (L : Int) :
    clampLen L = (if L < 4096 then Int.land L 4095 else 4096).toNat := by
  unfold clampLen MAX_DATA_SIZE
  norm_num

/-- Two's complement AND of a nonnegative value with the mask is a `Nat` mod. -/
theorem land_mask_ofNat (n : Nat) :
    Int.land (n : Int) 4095 = ((n % 4096 : Nat) : Int) := by
  have h : Int.land (n : Int) 4095 = ((n &&& 4095 : Nat) : Int) := rfl
  have h2 := Nat.and_pow_two_sub_one_eq_mod n 12
  norm_num at h2
  rw [h, h2]

/-- Two's complement AND of a negative value with the mask, by definition. -/
theorem land_mask_negSucc (m : Nat) :
    Int.land (Int.negSucc m) 4095 = ((Nat.ldiff 4095 m : Nat) : Int) := rfl

/-- The masked part of a negative `int` stays below the mask bound. -/
theorem ldiff_4095_lt (m : Nat) : Nat.ldiff 4095 m < 4096 := by
  by_contra h
  push_neg at h
  have h2 : Nat.ldiff 4095 m ≥ 2 ^ 12 := by norm_num; omega
  obtain ⟨i, hi, hbit⟩ := Nat.ge_two_pow_implies_high_bit_true h2
  rw [Nat.testBit_ldiff] at hbit
  have h3 : Nat.testBit 4095 i = false := by
    have h4 := Nat.testBit_two_pow_sub_one 12 i
    norm_num at h4
    rw [h4]
    simp
    omega
  rw [h3] at hbit
  simp at hbit

/-- On nonnegative lengths the clamp is exactly `min`. -/
theorem clampLen_eq_min (L : Int) (h : 0 ≤ L) :
    clampLen L = min L.toNat MAX_DATA_SIZE := by
  obtain ⟨n, rfl⟩ := Int.eq_ofNat_of_zero_le h
  rw [clampLen_def2]
  unfold MAX_DATA_SIZE
  by_cases hn : n < 4096
  · rw [if_pos (by exact_mod_cast hn), land_mask_ofNat, Nat.mod_eq_of_lt hn,
      Int.toNat_ofNat]
    omega
  · rw [if_neg (by exact_mod_cast hn), Int.toNat_ofNat]
    have h4 : (4096 : Int).toNat = 4096 := rfl
    rw [h4]
    omega

/-- On negative lengths the mask keeps the clamp strictly below
`MAX_DATA_SIZE`. -/
theorem clampLen_neg_lt (L : Int) (h : L < 0) :
    clampLen L < MAX_DATA_SIZE := by
  cases L with
  | ofNat n =>
    exact absurd (Int.ofNat_nonneg n) (Int.not_le.mpr h)
  | negSucc m =>
    rw [clampLen_def2, if_pos (by exact Int.lt_of_lt_of_le (Int.negSucc_lt_zero m) (by norm_num)),
      land_mask_negSucc]
    unfold MAX_DATA_SIZE
    have h2 := ldiff_4095_lt m
    simp
    omega

/-- The clamp never exceeds `MAX_DATA_SIZE`. -/
theorem clampLen_le_max (L : Int) : clampLen L ≤ MAX_DATA_SIZE := by
  rcases lt_or_le L 0 with h | h
  · exact le_of_lt (clampLen_neg_lt L h)
  · rw [clampLen_eq_min L h]
    exact min_le_right _ _

/-!
Claim theorems.
-/

/-- Claim C7: for the length-return convention, a return whose raw return
value casts to a negative `int` produces zero events and leaves the state,
including the scratch slot, untouched: the materializer returns before
acquiring a slot or publishing. -/
theorem C7_negative_length_no_event (w : World) (r : Regs) (id : Nat)
    (t : SSLEventType) (buf : Nat) (s : TracerState)
    (h : toInt32 r.rc < 0) :
    process_SSL_data w r id t buf s = (s, []) := by
  simp [process_SSL_data, if_pos, h]

/-- Witness for C7 at the concrete return value `(int)(-1)`. -/
theorem C7_witness :
    process_SSL_data wThread0 regsRetNeg tid0 SSLEventType.kSSLWrite 0 stInit
      = (stInit, []) :=
  C7_negative_length_no_event wThread0 regsRetNeg tid0 SSLEventType.kSSLWrite 0 stInit
    (by decide)

/-- Claim C3: for every nonnegative return length `L`, the emitted event's
`data_len` equals `min L MAX_DATA_SIZE` exactly: the mask
`L &&& (MAX_DATA_SIZE - 1)` in the `L < MAX_DATA_SIZE` branch is the identity
on such `L` because `MAX_DATA_SIZE` is a power of two, and every
`L ≥ MAX_DATA_SIZE` maps to exactly `MAX_DATA_SIZE`. -/
theorem C3_data_len_is_min (w : World) (r : Regs) (id : Nat)
    (t : SSLEventType) (buf : Nat) (s : TracerState)
    (h : 0 ≤ toInt32 r.rc) :
    ∃ ev, (process_SSL_data w r id t buf s).2 = [ev] ∧
      ev.data_len = min (toInt32 r.rc).toNat MAX_DATA_SIZE := by
  simp only [process_SSL_data]
  rw [if_neg (Int.not_lt.mpr h)]
  exact ⟨_, rfl, clampLen_eq_min _ h⟩

/-- Witness for C3 at the concrete return length 10. -/
theorem C3_witness :
    ∃ ev, (process_SSL_data wThread0 regsRet10 tid0 SSLEventType.kSSLWrite 0 stInit).2
        = [ev] ∧
      ev.data_len = min (toInt32 regsRet10.rc).toNat MAX_DATA_SIZE :=
  C3_data_len_is_min wThread0 regsRet10 tid0 SSLEventType.kSSLWrite 0 stInit (by decide)

/-- Claim C4: in both materializers, the payload copy reads exactly
`data_len` bytes starting at the captured buffer pointer — offsets below
`data_len` come from `mem (buffer_ptr + i)` and nothing past that range is
read — and it writes only the first `data_len` payload offsets, which the
clamp keeps within the record's fixed capacity `MAX_DATA_SIZE`; the
remaining offsets are untouched slot contents. -/
theorem C4_payload_copy_in_bounds (w : World) (r : Regs) (id : Nat)
    (t : SSLEventType) (buf : Nat) (b : Buffer) (s : TracerState)
    (ev ev2 : SSLDataEvent) :
    ((process_SSL_data w r id t buf s).2 = [ev] →
      ev.data_len ≤ MAX_DATA_SIZE ∧
      (∀ i, i < ev.data_len → ev.data i = w.mem (buf + i)) ∧
      (∀ i, ev.data_len ≤ i → ev.data i = s.data_buffer_heap.data i)) ∧
    ((process_SSL_ex_data w r id t b s).2 = [ev2] →
      ev2.data_len ≤ MAX_DATA_SIZE ∧
      (∀ i, i < ev2.data_len → ev2.data i = w.mem (b.content + i)) ∧
      (∀ i, ev2.data_len ≤ i → ev2.data i = s.data_buffer_heap.data i)) := by
  constructor
  · intro hev
    simp only [process_SSL_data] at hev
    split at hev
    · exact absurd hev (by simp)
    · rw [List.cons.injEq] at hev
      obtain ⟨rfl, -⟩ := hev
      refine ⟨clampLen_le_max _, fun i hi => if_pos hi, ?_⟩
      intro i hi
      dsimp only at hi ⊢
      exact if_neg (by omega)
  · intro hev
    simp only [process_SSL_ex_data] at hev
    split at hev
    · exact absurd hev (by simp)
    · rw [List.cons.injEq] at hev
      obtain ⟨rfl, -⟩ := hev
      refine ⟨clampLen_le_max _, fun i hi => if_pos hi, ?_⟩
      intro i hi
      dsimp only at hi ⊢
      exact if_neg (by omega)

/-- Witness for C4 at a concrete write return and a concrete
`SSL_read_ex` return. -/
theorem C4_witness :
    ((process_SSL_data wThread0 regsRet10 tid0 SSLEventType.kSSLWrite 1000 stInit).2.headI.data_len
        ≤ MAX_DATA_SIZE) ∧
    ((process_SSL_ex_data wThread0 regsRet10 tid0 SSLEventType.kSSLRead
        { content := 1000, len := 2000 } stInit).2.headI.data_len ≤ MAX_DATA_SIZE) :=
  ⟨((C4_payload_copy_in_bounds wThread0 regsRet10 tid0 SSLEventType.kSSLWrite 1000
      { content := 1000, len := 2000 } stInit _ evInit).1 rfl).1,
   ((C4_payload_copy_in_bounds wThread0 regsRet10 tid0 SSLEventType.kSSLWrite 1000
      { content := 1000, len := 2000 } stInit evInit _).2 rfl).1⟩

/-- Claim C10: every publish hands over the whole fixed-size record (the very
record left in the per-CPU scratch slot afterwards), but only the first
`data_len` payload offsets were written during materialization: offsets at
`data_len` and beyond still hold whatever the previous event built in the
same scratch slot. -/
theorem C10_payload_tail_reuse (w : World) (r : Regs) (id : Nat)
    (t : SSLEventType) (buf : Nat) (b : Buffer) (s : TracerState)
    (ev ev2 : SSLDataEvent) :
    ((process_SSL_data w r id t buf s).2 = [ev] →
      (process_SSL_data w r id t buf s).1.data_buffer_heap = ev ∧
      (∀ i, ev.data_len ≤ i → ev.data i = s.data_buffer_heap.data i)) ∧
    ((process_SSL_ex_data w r id t b s).2 = [ev2] →
      (process_SSL_ex_data w r id t b s).1.data_buffer_heap = ev2 ∧
      (∀ i, ev2.data_len ≤ i → ev2.data i = s.data_buffer_heap.data i)) := by
  constructor
  · intro hev
    simp only [process_SSL_data] at hev ⊢
    split at hev
    · exact absurd hev (by simp)
    · rw [List.cons.injEq] at hev
      obtain ⟨rfl, -⟩ := hev
      rename_i hlen
      rw [if_neg hlen]
      refine ⟨rfl, ?_⟩
      intro i hi
      dsimp only at hi ⊢
      exact if_neg (by omega)
  · intro hev
    simp only [process_SSL_ex_data] at hev ⊢
    split at hev
    · exact absurd hev (by simp)
    · rw [List.cons.injEq] at hev
      obtain ⟨rfl, -⟩ := hev
      rename_i hsucc
      rw [if_neg hsucc]
      refine ⟨rfl, ?_⟩
      intro i hi
      dsimp only at hi ⊢
      exact if_neg (by omega)

/-- Witness for C10 at a concrete write return: the scratch slot afterwards
holds exactly the published record. -/
theorem C10_witness :
    (process_SSL_data wThread0 regsRet10 tid0 SSLEventType.kSSLWrite 1000 stInit).1.data_buffer_heap
      = (process_SSL_data wThread0 regsRet10 tid0 SSLEventType.kSSLWrite 1000 stInit).2.headI :=
  ((C10_payload_tail_reuse wThread0 regsRet10 tid0 SSLEventType.kSSLWrite 1000
      { content := 1000, len := 2000 } stInit _ evInit).1 rfl).1

/-- Claim C5: for the read-with-count shape, a return whose status casts to
zero yields zero events regardless of the out-parameter; a return with
non-zero status and a pending record yields exactly one event of kind read,
whose `data_len` is the clamp of the `int` cast of the pointee of the
captured length-out pointer and whose payload prefix comes from the captured
source buffer. -/
theorem C5_readex_return_events (T : Nat) (w : World) (r : Regs)
    (s : TracerState) (bufp lenp : Nat)
    (hpid : pidOf w.pid_tgid = T) :
    (toInt32 r.rc = 0 → (probe_ret_SSL_read_ex T w r s).2 = []) ∧
    (toInt32 r.rc ≠ 0 →
      s.active_ssl_readex_buf_len_map w.pid_tgid = some { content := bufp, len := lenp } →
      ∃ ev, (probe_ret_SSL_read_ex T w r s).2 = [ev] ∧
        ev.type = SSLEventType.kSSLRead ∧
        ev.data_len = clampLen (toInt32 (w.memSize lenp)) ∧
        ∀ i, i < ev.data_len → ev.data i = w.mem (bufp + i)) := by
  constructor
  · intro h0
    simp only [probe_ret_SSL_read_ex]
    rw [if_neg (not_not_intro hpid)]
    rcases hm : s.active_ssl_readex_buf_len_map w.pid_tgid with _ | b
    · rfl
    · dsimp only
      simp only [process_SSL_ex_data]
      rw [if_pos h0]
  · intro hne hmap
    simp only [probe_ret_SSL_read_ex]
    rw [if_neg (not_not_intro hpid), hmap]
    dsimp only
    simp only [process_SSL_ex_data]
    rw [if_neg hne]
    exact ⟨_, rfl, rfl, rfl, fun i hi => if_pos hi⟩

/-- Witness for C5: non-zero status 10, out-parameter pointee 10, pending
record present. -/
theorem C5_witness :
    ∃ ev, (probe_ret_SSL_read_ex 1234 wThread0 regsRet10
        { stInit with
            active_ssl_readex_buf_len_map :=
              updMap stInit.active_ssl_readex_buf_len_map tid0
                { content := 1000, len := 2000 } }).2 = [ev] ∧
      ev.type = SSLEventType.kSSLRead ∧
      ev.data_len = clampLen (toInt32 (wThread0.memSize 2000)) ∧
      ∀ i, i < ev.data_len → ev.data i = wThread0.mem (1000 + i) :=
  (C5_readex_return_events 1234 wThread0 regsRet10
      { stInit with
          active_ssl_readex_buf_len_map :=
            updMap stInit.active_ssl_readex_buf_len_map tid0
              { content := 1000, len := 2000 } } 1000 2000 (by decide)).2
    (by decide) rfl

/-- Claim C1 (code bug demonstration): after an `SSL_read_ex` entry and its
matching return on a target-process thread, the readex correlation map still
holds that thread's pending record — the return handler deleted from the
read map instead of the readex map (line 261). -/
theorem C1_readex_entry_not_cleared :
    ((runTrace 1234 stInit [Invocation.entryReadEx wThread0 regsEntryA,
        Invocation.retReadEx wThread0 regsRet10]).1).active_ssl_readex_buf_len_map tid0
      = some { content := 1000, len := 2000 } := rfl

/-- Claim C2 (code bug demonstration): an `SSL_read` entry arms the read
map, and a subsequent `SSL_read_ex` return on the same thread deletes that
read-shape entry (line 261), even though it is another shape's map. -/
theorem C2_readex_ret_deletes_read_entry :
    ((runTrace 1234 stInit [Invocation.entryRead wThread0 regsEntryA]).1).active_ssl_read_args_map tid0
        = some 1000 ∧
    ((runTrace 1234 stInit [Invocation.entryRead wThread0 regsEntryA,
        Invocation.retReadEx wThread0 regsRet10]).1).active_ssl_read_args_map tid0
        = none :=
  ⟨rfl, rfl⟩

/-- Helper: every handler short-circuits to a pure no-op when the current
process id does not match the target. -/
theorem step_noop_of_pid_ne (T : Nat) (s : TracerState) (inv : Invocation)
    (h : pidOf inv.world.pid_tgid ≠ T) :
    step T s inv = (s, []) := by
  cases inv <;>
    (dsimp only [Invocation.world] at h
     simp only [step, probe_entry_SSL_write, probe_ret_SSL_write,
       probe_entry_SSL_read, probe_ret_SSL_read,
       probe_entry_SSL_read_ex, probe_ret_SSL_read_ex]
     rw [if_pos h])

/-- Claim C6: under every sequence of handler invocations, an invocation
whose current process id differs from the target is a complete no-op: it
leaves the whole state (all three correlation maps and both scratch slots)
unchanged, publishes nothing, and removing it anywhere from a trace changes
neither the final state nor the event sequence. -/
theorem C6_mismatched_pid_noop (T : Nat) (inv : Invocation)
    (h : pidOf inv.world.pid_tgid ≠ T) :
    (∀ s : TracerState, step T s inv = (s, [])) ∧
    (∀ (pre post : List Invocation) (s : TracerState),
      runTrace T s (pre ++ inv :: post) = runTrace T s (pre ++ post)) := by
  have hstep : ∀ s : TracerState, step T s inv = (s, []) :=
    fun s => step_noop_of_pid_ne T s inv h
  refine ⟨hstep, ?_⟩
  intro pre
  induction pre with
  | nil =>
    intro post s
    simp [runTrace, hstep]
  | cons a pre ih =>
    intro post s
    simp only [List.cons_append, runTrace, List.append_eq]
    rw [ih]

/-- Witness for C6: an invocation from process 999 with target 1234 changes
nothing. -/
theorem C6_witness :
    step 1234 stInit (Invocation.entryWrite wOther regsEntryA) = (stInit, []) :=
  (C6_mismatched_pid_noop 1234 (Invocation.entryWrite wOther regsEntryA)
      (by decide)).1 stInit

/-- Helper: an event submitted by `process_SSL_data` has its length clamped. -/
theorem data_len_le_of_mem_data (w : World) (r : Regs) (id : Nat)
    (t : SSLEventType) (buf : Nat) (s : TracerState) (ev : SSLDataEvent)
    (h : ev ∈ (process_SSL_data w r id t buf s).2) :
    ev.data_len ≤ MAX_DATA_SIZE := by
  simp only [process_SSL_data] at h
  split at h
  · simp at h
  · simp only [List.mem_singleton] at h
    subst h
    exact clampLen_le_max _

/-- Helper: an event submitted by `process_SSL_ex_data` has its length
clamped. -/
theorem data_len_le_of_mem_ex_data (w : World) (r : Regs) (id : Nat)
    (t : SSLEventType) (b : Buffer) (s : TracerState) (ev : SSLDataEvent)
    (h : ev ∈ (process_SSL_ex_data w r id t b s).2) :
    ev.data_len ≤ MAX_DATA_SIZE := by
  simp only [process_SSL_ex_data] at h
  split at h
  · simp at h
  · simp only [List.mem_singleton] at h
    subst h
    exact clampLen_le_max _

/-- Claim C9: every published event has `data_len` in `[0, MAX_DATA_SIZE]`,
whatever invocation produced it; in particular, in the read-with-count path
an out-parameter whose `int` cast is negative is mapped by the mask into
`[0, MAX_DATA_SIZE - 1]` rather than out of range. -/
theorem C9_data_len_in_range :
    (∀ (T : Nat) (s : TracerState) (inv : Invocation) (ev : SSLDataEvent),
      ev ∈ (step T s inv).2 → ev.data_len ≤ MAX_DATA_SIZE) ∧
    (∀ (w : World) (r : Regs) (id : Nat) (t : SSLEventType) (b : Buffer)
      (s : TracerState) (ev : SSLDataEvent),
      (process_SSL_ex_data w r id t b s).2 = [ev] →
      toInt32 (w.memSize b.len) < 0 → ev.data_len < MAX_DATA_SIZE) := by
  constructor
  · intro T s inv ev h
    cases inv with
    | entryWrite w r =>
      simp only [step, probe_entry_SSL_write] at h
      split at h <;> simp at h
    | entryRead w r =>
      simp only [step, probe_entry_SSL_read] at h
      split at h <;> simp at h
    | entryReadEx w r =>
      simp only [step, probe_entry_SSL_read_ex] at h
      split at h <;> simp at h
    | retWrite w r =>
      simp only [step, probe_ret_SSL_write] at h
      split at h
      · simp at h
      · rcases hm : s.active_ssl_write_args_map w.pid_tgid with _ | buf <;>
          rw [hm] at h
        · simp at h
        · exact data_len_le_of_mem_data w r w.pid_tgid SSLEventType.kSSLWrite buf s ev h
    | retRead w r =>
      simp only [step, probe_ret_SSL_read] at h
      split at h
      · simp at h
      · rcases hm : s.active_ssl_read_args_map w.pid_tgid with _ | buf <;>
          rw [hm] at h
        · simp at h
        · exact data_len_le_of_mem_data w r w.pid_tgid SSLEventType.kSSLRead buf s ev h
    | retReadEx w r =>
      simp only [step, probe_ret_SSL_read_ex] at h
      split at h
      · simp at h
      · rcases hm : s.active_ssl_readex_buf_len_map w.pid_tgid with _ | b <;>
          rw [hm] at h
        · simp at h
        · exact data_len_le_of_mem_ex_data w r w.pid_tgid SSLEventType.kSSLRead b s ev h
  · intro w r id t b s ev hev hneg
    simp only [process_SSL_ex_data] at hev
    split at hev
    · exact absurd hev (by simp)
    · rw [List.cons.injEq] at hev
      obtain ⟨rfl, -⟩ := hev
      exact clampLen_neg_lt _ hneg

/-- Witness for C9: a concrete write return stays within `MAX_DATA_SIZE`,
and a concrete read-with-count return whose out-parameter casts to `-1`
stays strictly below it. -/
theorem C9_witness :
    ((step 1234 stArmedWrite (Invocation.retWrite wThread0 regsRet10)).2.headI.data_len
        ≤ MAX_DATA_SIZE) ∧
    ((process_SSL_ex_data wNegLen regsRet10 tid0 SSLEventType.kSSLRead
        { content := 1000, len := 2000 } stInit).2.headI.data_len < MAX_DATA_SIZE) :=
  ⟨C9_data_len_in_range.1 1234 stArmedWrite (Invocation.retWrite wThread0 regsRet10) _
      (List.Mem.head _),
   C9_data_len_in_range.2 wNegLen regsRet10 tid0 SSLEventType.kSSLRead
      { content := 1000, len := 2000 } stInit _ rfl (by decide)⟩

/-- Claim C8: with the correlation map keyed by the 64-bit thread identity,
thread A's entry, then thread B's entry, then thread A's return materializes
the event from thread A's captured buffer pointer, not thread B's. -/
theorem C8_interleaved_threads (T : Nat) (wA wB wR : World)
    (rA rB rR : Regs) (s : TracerState)
    (hA : pidOf wA.pid_tgid = T) (hB : pidOf wB.pid_tgid = T)
    (hR : wR.pid_tgid = wA.pid_tgid) (hAB : wA.pid_tgid ≠ wB.pid_tgid)
    (hlen : 0 ≤ toInt32 rR.rc) :
    ∃ ev, (runTrace T s [Invocation.entryWrite wA rA, Invocation.entryWrite wB rB,
        Invocation.retWrite wR rR]).2 = [ev] ∧
      (∀ i, i < ev.data_len → ev.data i = wR.mem (rA.parm2 + i)) := by
  simp only [runTrace, step, probe_entry_SSL_write, probe_ret_SSL_write]
  rw [if_neg (not_not_intro hA), if_neg (not_not_intro hB), hR,
    if_neg (not_not_intro hA)]
  simp only [updMap]
  rw [if_neg hAB]
  simp only [if_true]
  simp only [process_SSL_data]
  rw [if_neg (Int.not_lt.mpr hlen)]
  exact ⟨_, rfl, fun i hi => if_pos hi⟩

/-- Witness for C8: threads 7 and 8 of process 1234 with distinct buffer
pointers 1000 and 3000. -/
theorem C8_witness :
    ∃ ev, (runTrace 1234 stInit [Invocation.entryWrite wThread0 regsEntryA,
        Invocation.entryWrite wThread1 regsEntryB,
        Invocation.retWrite wThread0 regsRet10]).2 = [ev] ∧
      (∀ i, i < ev.data_len → ev.data i = wThread0.mem (regsEntryA.parm2 + i)) :=
  C8_interleaved_threads 1234 wThread0 wThread1 wThread0 regsEntryA regsEntryB
    regsRet10 stInit (by decide) (by decide) rfl (by decide) (by decide)

end OpenSSLTracer
